import Mathlib

/-!
Verification of the Flask-User `UserManager` core (`flask_user/user_manager.py`):
the settings-resolution pass `_check_settings`, the lookup and availability
helpers, and the URL-route registration.

The stateful Python methods are embedded as pure functions over explicit
record types.  `self`'s `USER_...` settings, the presence of the optional
classes and of the database adapter are gathered in `Settings`; the
database contents seen through the adapter's `ifind_first_object` are
gathered in `UserDb`.
-/

namespace FlaskUser

/-- The fields of the `UserManager` read or written by `_check_settings`,
`_add_url_routes` and `init_urls`:

* `dbAdapterPresent` models `self.db_adapter is not None` (line 284);
* `userInvitationClassPresent` models `self.UserInvitationClass` being set;
* `userEmailClassPresent` models `self.UserEmailClass` being set
  (read by `_add_url_routes`, line 388);
* the remaining fields are the boolean `USER_...` settings those methods use. -/
structure Settings where
  dbAdapterPresent : Bool
  userInvitationClassPresent : Bool
  userEmailClassPresent : Bool
  USER_ENABLE_USERNAME : Bool
  USER_ENABLE_EMAIL : Bool
  USER_ENABLE_REGISTER : Bool
  USER_ENABLE_CONFIRM_EMAIL : Bool
  USER_ENABLE_MULTIPLE_EMAILS : Bool
  USER_ENABLE_FORGOT_PASSWORD : Bool
  USER_SEND_PASSWORD_CHANGED_EMAIL : Bool
  USER_SEND_REGISTERED_EMAIL : Bool
  USER_SEND_USERNAME_CHANGED_EMAIL : Bool
  USER_REQUIRE_INVITATION : Bool
  USER_ENABLE_CHANGE_USERNAME : Bool
  USER_ENABLE_INVITE_USER : Bool
  USER_ENABLE_CHANGE_PASSWORD : Bool
deriving DecidableEq, Repr

/-- The two `ConfigurationError` raises of `_check_settings`
(lines 284-289): missing `DbAdapter`, and missing `UserInvitationClass`
while `USER_ENABLE_INVITE_USER` is set. -/
inductive ConfigurationError where
  | missingDbAdapter
  | missingUserInvitationClass
deriving DecidableEq, Repr

/-- The dependency-forcing block of `_check_settings` (lines 291-309):

* if neither `USER_ENABLE_USERNAME` nor `USER_ENABLE_EMAIL`, clear
  `USER_ENABLE_REGISTER`;
* if not `USER_ENABLE_EMAIL`, clear the seven email-dependent settings;
* if not `USER_ENABLE_USERNAME`, clear `USER_ENABLE_CHANGE_USERNAME`. -/
def forceDependentSettings (s : Settings) : Settings :=
  let s1 :=
    if !s.USER_ENABLE_USERNAME && !s.USER_ENABLE_EMAIL then
      { s with USER_ENABLE_REGISTER := false }
    else s
  let s2 :=
    if !s1.USER_ENABLE_EMAIL then
      { s1 with
          USER_ENABLE_CONFIRM_EMAIL := false
          USER_ENABLE_MULTIPLE_EMAILS := false
          USER_ENABLE_FORGOT_PASSWORD := false
          USER_SEND_PASSWORD_CHANGED_EMAIL := false
          USER_SEND_REGISTERED_EMAIL := false
          USER_SEND_USERNAME_CHANGED_EMAIL := false
          USER_REQUIRE_INVITATION := false }
    else s1
  if !s2.USER_ENABLE_USERNAME then
    { s2 with USER_ENABLE_CHANGE_USERNAME := false }
  else s2

/-- `_check_settings` (lines 282-309).  The Python method mutates `self` and
may raise; it is embedded as a function returning the settings as left by the
method together with the raised error, if any.  As in the source, the two
hard-requirement checks run first (lines 284-289) and abort before any
mutation, and the dependency-forcing block runs after them. -/
def checkSettings (s : Settings) : Settings × Option ConfigurationError :=
  if !s.dbAdapterPresent then
    (s, some .missingDbAdapter)
  else if s.USER_ENABLE_INVITE_USER && !s.userInvitationClassPresent then
    (s, some .missingUserInvitationClass)
  else
    (forceDependentSettings s, none)

/-- Settings resolution in the order §4.3 of the spec prescribes, written
from the spec's words for comparison with `checkSettings`: the
dependency-forcing pass first, then the hard-requirement validation. -/
def specOrderCheckSettings (s : Settings) : Settings × Option ConfigurationError :=
  let s1 := forceDependentSettings s
  if !s1.dbAdapterPresent then
    (s1, some .missingDbAdapter)
  else if s1.USER_ENABLE_INVITE_USER && !s1.userInvitationClassPresent then
    (s1, some .missingUserInvitationClass)
  else
    (s1, none)

/-! ## Lookup and availability helpers -/

/-- A `User` record as the lookup helpers see it: its `username` and `email`
columns. -/
structure UserRec where
  username : String
  email : String
deriving DecidableEq, Repr

/-- A `UserEmail` record as `find_user_by_email` sees it: its `email` column
and its `user` relationship (the owning user, possibly unset). -/
structure UserEmailRec where
  email : String
  user : Option UserRec
deriving DecidableEq, Repr

/-- `flask_login.current_user` as read by `username_is_available`:
`is_authenticated` (through `_call_or_get`) and `username`. -/
structure CurrentUser where
  authenticated : Bool
  username : String
deriving DecidableEq, Repr

/-- The database contents behind the adapter, as seen by the lookup helpers:
whether a `UserEmailClass` was configured, the `User` rows, and the
`UserEmail` rows. -/
structure UserDb where
  userEmailClassPresent : Bool
  users : List UserRec
  userEmails : List UserEmailRec
deriving DecidableEq, Repr

/-- The case-insensitive equality the adapter's `ifind_first_object` applies
to a filter value: the two strings agree letter-for-letter once lowercased. -/
def istrEq (a b : String) : Bool :=
  a.data.map Char.toLower == b.data.map Char.toLower

/-- `find_user_by_username` (lines 320-322):
`ifind_first_object(UserClass, username=username)`. -/
def find_user_by_username (db : UserDb) (username : String) : Option UserRec :=
  db.users.find? (fun u => istrEq u.username username)

/-- `find_user_by_email` (lines 324-333): with a `UserEmailClass`, look the
`UserEmail` row up case-insensitively and follow its `user` relationship;
otherwise look the `User` row up by its `email` column.  Returns the pair
`(user, user_email)`. -/
def find_user_by_email (db : UserDb) (email : String) :
    Option UserRec × Option UserEmailRec :=
  if db.userEmailClassPresent then
    let user_email := db.userEmails.find? (fun ue => istrEq ue.email email)
    let user := match user_email with
      | some ue => ue.user
      | none => none
    (user, user_email)
  else
    (db.users.find? (fun u => istrEq u.email email), none)

/-- `email_is_available` (lines 335-343): `user == None` for the `user`
component of `find_user_by_email`. -/
def email_is_available (db : UserDb) (new_email : String) : Bool :=
  (find_user_by_email db new_email).1.isNone

/-- `username_is_available` (lines 345-358): `True` when the authenticated
current user already bears exactly that username, otherwise
`find_user_by_username(new_username) == None`. -/
def username_is_available (db : UserDb) (cu : CurrentUser)
    (new_username : String) : Bool :=
  if cu.authenticated && (new_username == cu.username) then
    true
  else
    (find_user_by_username db new_username).isNone

/-! ## Route registration -/

/-- The endpoints added by `_add_url_routes` (lines 372-393), in source
order: `user.login` and `user.logout` always, then each feature's endpoints
guarded by its setting, `user.email_action` and `user.manage_emails` guarded
by the presence of `UserEmailClass`, and `user.edit_user_profile` always. -/
def add_url_routes_endpoints (s : Settings) : List String :=
  ["user.login", "user.logout"]
  ++ (if s.USER_ENABLE_CONFIRM_EMAIL then
        ["user.confirm_email", "user.resend_email_confirmation"] else [])
  ++ (if s.USER_ENABLE_CHANGE_PASSWORD then ["user.change_password"] else [])
  ++ (if s.USER_ENABLE_CHANGE_USERNAME then ["user.change_username"] else [])
  ++ (if s.USER_ENABLE_FORGOT_PASSWORD then
        ["user.forgot_password", "user.reset_password"] else [])
  ++ (if s.USER_ENABLE_REGISTER then ["user.register"] else [])
  ++ (if s.userEmailClassPresent then
        ["user.email_action", "user.manage_emails"] else [])
  ++ ["user.edit_user_profile"]
  ++ (if s.USER_ENABLE_INVITE_USER then ["user.invite_user"] else [])

/-- The endpoints added by `init_urls` (lines 395-449), the method
`init_app` actually invokes (line 179): all thirteen `add_url_rule` calls
are unconditional, whatever the resolved settings are. -/
def init_urls_endpoints (_ : Settings) : List String :=
  ["user.change_password", "user.change_username", "user.confirm_email",
   "user.edit_user_profile", "user.email_action", "user.forgot_password",
   "user.invite_user", "user.login", "user.logout", "user.manage_emails",
   "user.register", "user.resend_email_confirmation", "user.reset_password"]

/-! ## Concrete settings states used as test inputs -/

/-- A settings state with the adapter, both optional classes, and every
`USER_...` flag on. -/
def sAllOn : Settings :=
  ⟨true, true, true, true, true, true, true, true,
   true, true, true, true, true, true, true, true⟩

/-- `sAllOn` with `USER_ENABLE_EMAIL` off. -/
def sEmailOff : Settings := { sAllOn with USER_ENABLE_EMAIL := false }

/-- `sEmailOff` after the dependency-forcing pass: the seven email-dependent
flags cleared. -/
def sEmailOffForced : Settings :=
  { sEmailOff with
      USER_ENABLE_CONFIRM_EMAIL := false
      USER_ENABLE_MULTIPLE_EMAILS := false
      USER_ENABLE_FORGOT_PASSWORD := false
      USER_SEND_PASSWORD_CHANGED_EMAIL := false
      USER_SEND_REGISTERED_EMAIL := false
      USER_SEND_USERNAME_CHANGED_EMAIL := false
      USER_REQUIRE_INVITATION := false }

/-- `sAllOn` with both identification methods off. -/
def sNoIdent : Settings :=
  { sAllOn with USER_ENABLE_USERNAME := false, USER_ENABLE_EMAIL := false }

/-- `sNoIdent` after the dependency-forcing pass. -/
def sNoIdentForced : Settings :=
  { sNoIdent with
      USER_ENABLE_REGISTER := false
      USER_ENABLE_CONFIRM_EMAIL := false
      USER_ENABLE_MULTIPLE_EMAILS := false
      USER_ENABLE_FORGOT_PASSWORD := false
      USER_SEND_PASSWORD_CHANGED_EMAIL := false
      USER_SEND_REGISTERED_EMAIL := false
      USER_SEND_USERNAME_CHANGED_EMAIL := false
      USER_REQUIRE_INVITATION := false
      USER_ENABLE_CHANGE_USERNAME := false }

/-- `sAllOn` with `USER_ENABLE_USERNAME` off. -/
def sNoUsername : Settings := { sAllOn with USER_ENABLE_USERNAME := false }

/-- `sNoUsername` after the dependency-forcing pass. -/
def sNoUsernameForced : Settings :=
  { sNoUsername with USER_ENABLE_CHANGE_USERNAME := false }

/-- A settings state with no database adapter, email support off, and email
confirmation still on: `_check_settings` raises `missingDbAdapter` here
without having forced any flag. -/
def sNoAdapter : Settings :=
  { sAllOn with dbAdapterPresent := false, USER_ENABLE_EMAIL := false }

/-- A resolved settings state (a fixed point of `checkSettings`) with
`USER_ENABLE_INVITE_USER` off. -/
def sResolvedNoInvite : Settings :=
  { sAllOn with USER_ENABLE_INVITE_USER := false }

/-- A concrete user owning the username `alice` and the email
`alice@example.com`. -/
def userAlice : UserRec := ⟨"alice", "alice@example.com"⟩

/-- A database without a `UserEmailClass`, holding only `userAlice`. -/
def dbOne : UserDb := ⟨false, [userAlice], []⟩

/-- A current user authenticated as `alice`. -/
def cuAlice : CurrentUser := ⟨true, "alice"⟩

/-! ## Helper lemmas about the dependency-forcing pass -/

theorem force_dbAdapterPresent (s : Settings) :
    (forceDependentSettings s).dbAdapterPresent = s.dbAdapterPresent := by
  rcases s with ⟨d, invc, uec, un, em, rg, ce, me, fp, spc, sre, suc, ri, cu, iu, cp⟩
  cases un <;> cases em <;> rfl

theorem force_userInvitationClassPresent (s : Settings) :
    (forceDependentSettings s).userInvitationClassPresent =
      s.userInvitationClassPresent := by
  rcases s with ⟨d, invc, uec, un, em, rg, ce, me, fp, spc, sre, suc, ri, cu, iu, cp⟩
  cases un <;> cases em <;> rfl

theorem force_userEmailClassPresent (s : Settings) :
    (forceDependentSettings s).userEmailClassPresent = s.userEmailClassPresent := by
  rcases s with ⟨d, invc, uec, un, em, rg, ce, me, fp, spc, sre, suc, ri, cu, iu, cp⟩
  cases un <;> cases em <;> rfl

theorem force_USER_ENABLE_INVITE_USER (s : Settings) :
    (forceDependentSettings s).USER_ENABLE_INVITE_USER =
      s.USER_ENABLE_INVITE_USER := by
  rcases s with ⟨d, invc, uec, un, em, rg, ce, me, fp, spc, sre, suc, ri, cu, iu, cp⟩
  cases un <;> cases em <;> rfl

theorem force_idem (s : Settings) :
    forceDependentSettings (forceDependentSettings s) = forceDependentSettings s := by
  rcases s with ⟨d, invc, uec, un, em, rg, ce, me, fp, spc, sre, suc, ri, cu, iu, cp⟩
  cases un <;> cases em <;> rfl

/-- On success, `_check_settings` passed both hard-requirement checks and
returned the dependency-forced settings. -/
theorem checkSettings_ok (s r : Settings) (h : checkSettings s = (r, none)) :
    r = forceDependentSettings s ∧ s.dbAdapterPresent = true ∧
      (s.USER_ENABLE_INVITE_USER && !s.userInvitationClassPresent) = false := by
  unfold checkSettings at h
  split_ifs at h with h1 h2
  · exact absurd (congrArg Prod.snd h) (by simp)
  · exact absurd (congrArg Prod.snd h) (by simp)
  · refine ⟨(congrArg Prod.fst h).symm, ?_, ?_⟩
    · simpa using h1
    · simpa using h2

theorem force_email_off (s : Settings) (hmail : s.USER_ENABLE_EMAIL = false) :
    (forceDependentSettings s).USER_ENABLE_CONFIRM_EMAIL = false ∧
    (forceDependentSettings s).USER_ENABLE_MULTIPLE_EMAILS = false ∧
    (forceDependentSettings s).USER_ENABLE_FORGOT_PASSWORD = false ∧
    (forceDependentSettings s).USER_SEND_PASSWORD_CHANGED_EMAIL = false ∧
    (forceDependentSettings s).USER_SEND_REGISTERED_EMAIL = false ∧
    (forceDependentSettings s).USER_SEND_USERNAME_CHANGED_EMAIL = false ∧
    (forceDependentSettings s).USER_REQUIRE_INVITATION = false := by
  rcases s with ⟨d, invc, uec, un, em, rg, ce, me, fp, spc, sre, suc, ri, cu, iu, cp⟩
  cases un <;> cases em <;> simp_all [forceDependentSettings]

theorem force_no_ident (s : Settings) (hu : s.USER_ENABLE_USERNAME = false)
    (he : s.USER_ENABLE_EMAIL = false) :
    (forceDependentSettings s).USER_ENABLE_REGISTER = false := by
  rcases s with ⟨d, invc, uec, un, em, rg, ce, me, fp, spc, sre, suc, ri, cu, iu, cp⟩
  cases un <;> cases em <;> simp_all [forceDependentSettings]

theorem force_username_off (s : Settings) (hu : s.USER_ENABLE_USERNAME = false) :
    (forceDependentSettings s).USER_ENABLE_CHANGE_USERNAME = false ∧
    (s.USER_ENABLE_EMAIL = true →
      (forceDependentSettings s).USER_ENABLE_REGISTER = s.USER_ENABLE_REGISTER) := by
  rcases s with ⟨d, invc, uec, un, em, rg, ce, me, fp, spc, sre, suc, ri, cu, iu, cp⟩
  cases un <;> cases em <;> simp_all [forceDependentSettings]

/-! ## Claims about `_check_settings` -/

/-- C1 counterexample: at `sNoAdapter`, `_check_settings` raises
`missingDbAdapter` while `USER_ENABLE_CONFIRM_EMAIL` is still `true` even
though `USER_ENABLE_EMAIL` is `false` — no flag-forcing happened before the
raise, so the run differs from the forcing-first order
`specOrderCheckSettings`, refuting the claim that the dependency-forcing
pass executes before the hard-requirement validation. -/
theorem check_settings_spec_order_counterexample :
    sNoAdapter.USER_ENABLE_EMAIL = false ∧
    sNoAdapter.USER_ENABLE_CONFIRM_EMAIL = true ∧
    (checkSettings sNoAdapter).2 = some ConfigurationError.missingDbAdapter ∧
    ((checkSettings sNoAdapter).1).USER_ENABLE_CONFIRM_EMAIL = true ∧
    checkSettings sNoAdapter ≠ specOrderCheckSettings sNoAdapter := by
  decide

/-- C1 amended: in `_check_settings` the hard-requirement validation runs
first: when a `ConfigurationError` is raised the settings are returned as
given, with no forcing performed, and when no error is raised the result is
exactly the forcing-first result; which error (if any) is raised is the same
in either order, because forcing never alters `db_adapter`,
`USER_ENABLE_INVITE_USER` or `UserInvitationClass`. -/
theorem check_settings_validates_before_forcing (s : Settings) :
    checkSettings s =
      (if (specOrderCheckSettings s).2 = none then specOrderCheckSettings s
       else (s, (specOrderCheckSettings s).2)) := by
  rcases s with ⟨d, invc, uec, un, em, rg, ce, me, fp, spc, sre, suc, ri, cu, iu, cp⟩
  cases d <;> cases iu <;> cases invc <;> cases un <;> cases em <;>
    simp [checkSettings, specOrderCheckSettings, forceDependentSettings]

/-- C2: settings resolution is idempotent — if `_check_settings` ran
successfully, leaving settings `r`, then running it again on `r` succeeds
and leaves every setting unchanged. -/
theorem check_settings_idempotent (s r : Settings)
    (h : checkSettings s = (r, none)) : checkSettings r = (r, none) := by
  obtain ⟨rfl, hd, hinv⟩ := checkSettings_ok s r h
  simp [checkSettings, force_dbAdapterPresent, hd,
    force_USER_ENABLE_INVITE_USER, force_userInvitationClassPresent, hinv,
    force_idem]

/-- C2 witness: resolving `sEmailOff` yields `sEmailOffForced`, and
resolving that again leaves it unchanged. -/
theorem check_settings_idempotent_witness :
    checkSettings sEmailOffForced = (sEmailOffForced, none) :=
  check_settings_idempotent sEmailOff sEmailOffForced (by decide)

/-- C3: `_check_settings` raises a `ConfigurationError` if and only if the
database adapter is missing, or `USER_ENABLE_INVITE_USER` is set without a
`UserInvitationClass`; in every other settings state it completes without
raising. -/
theorem check_settings_error_iff (s : Settings) :
    (checkSettings s).2 ≠ none ↔
      (s.dbAdapterPresent = false ∨
        (s.USER_ENABLE_INVITE_USER = true ∧
          s.userInvitationClassPresent = false)) := by
  rcases s with ⟨d, invc, uec, un, em, rg, ce, me, fp, spc, sre, suc, ri, cu, iu, cp⟩
  cases d <;> cases iu <;> cases invc <;> simp [checkSettings]

/-- C4: when `USER_ENABLE_EMAIL` is off, a successful run of
`_check_settings` leaves the seven email-dependent settings all off. -/
theorem email_disabled_forces_dependent_flags (s r : Settings)
    (hmail : s.USER_ENABLE_EMAIL = false) (h : checkSettings s = (r, none)) :
    r.USER_ENABLE_CONFIRM_EMAIL = false ∧
    r.USER_ENABLE_MULTIPLE_EMAILS = false ∧
    r.USER_ENABLE_FORGOT_PASSWORD = false ∧
    r.USER_SEND_PASSWORD_CHANGED_EMAIL = false ∧
    r.USER_SEND_REGISTERED_EMAIL = false ∧
    r.USER_SEND_USERNAME_CHANGED_EMAIL = false ∧
    r.USER_REQUIRE_INVITATION = false := by
  obtain ⟨rfl, -, -⟩ := checkSettings_ok s r h
  exact force_email_off s hmail

/-- C4 witness at `sEmailOff`. -/
theorem email_disabled_forces_dependent_flags_witness :
    sEmailOffForced.USER_ENABLE_CONFIRM_EMAIL = false ∧
    sEmailOffForced.USER_ENABLE_MULTIPLE_EMAILS = false ∧
    sEmailOffForced.USER_ENABLE_FORGOT_PASSWORD = false ∧
    sEmailOffForced.USER_SEND_PASSWORD_CHANGED_EMAIL = false ∧
    sEmailOffForced.USER_SEND_REGISTERED_EMAIL = false ∧
    sEmailOffForced.USER_SEND_USERNAME_CHANGED_EMAIL = false ∧
    sEmailOffForced.USER_REQUIRE_INVITATION = false :=
  email_disabled_forces_dependent_flags sEmailOff sEmailOffForced
    (by decide) (by decide)

/-- C5: when both `USER_ENABLE_USERNAME` and `USER_ENABLE_EMAIL` are off, a
successful run of `_check_settings` leaves `USER_ENABLE_REGISTER` off. -/
theorem no_identification_disables_register (s r : Settings)
    (hu : s.USER_ENABLE_USERNAME = false) (he : s.USER_ENABLE_EMAIL = false)
    (h : checkSettings s = (r, none)) :
    r.USER_ENABLE_REGISTER = false := by
  obtain ⟨rfl, -, -⟩ := checkSettings_ok s r h
  exact force_no_ident s hu he

/-- C5 witness at `sNoIdent`. -/
theorem no_identification_disables_register_witness :
    sNoIdentForced.USER_ENABLE_REGISTER = false :=
  no_identification_disables_register sNoIdent sNoIdentForced
    (by decide) (by decide) (by decide)

/-- C6: when `USER_ENABLE_USERNAME` is off, a successful run of
`_check_settings` leaves `USER_ENABLE_CHANGE_USERNAME` off, and when
`USER_ENABLE_EMAIL` is on it leaves `USER_ENABLE_REGISTER` exactly as it
was before the run. -/
theorem username_disabled_forces_change_username_off (s r : Settings)
    (hu : s.USER_ENABLE_USERNAME = false) (h : checkSettings s = (r, none)) :
    r.USER_ENABLE_CHANGE_USERNAME = false ∧
    (s.USER_ENABLE_EMAIL = true →
      r.USER_ENABLE_REGISTER = s.USER_ENABLE_REGISTER) := by
  obtain ⟨rfl, -, -⟩ := checkSettings_ok s r h
  exact force_username_off s hu

/-- C6 witness at `sNoUsername`: change-username is forced off and
register keeps its value `true`. -/
theorem username_disabled_forces_change_username_off_witness :
    sNoUsernameForced.USER_ENABLE_CHANGE_USERNAME = false ∧
    (sNoUsername.USER_ENABLE_EMAIL = true →
      sNoUsernameForced.USER_ENABLE_REGISTER = sNoUsername.USER_ENABLE_REGISTER) :=
  username_disabled_forces_change_username_off sNoUsername sNoUsernameForced
    (by decide) (by decide)

/-- C10: `_check_settings` only ever clears the nine dependent flags and
touches nothing else: the adapter, the optional classes,
`USER_ENABLE_USERNAME`, `USER_ENABLE_EMAIL`, `USER_ENABLE_INVITE_USER` and
`USER_ENABLE_CHANGE_PASSWORD` are unchanged, and each of the nine dependent
flags either keeps its value or is set to `false` (never `false` to
`true`). -/
theorem check_settings_frame (s : Settings) :
    ((checkSettings s).1).dbAdapterPresent = s.dbAdapterPresent ∧
    ((checkSettings s).1).userInvitationClassPresent = s.userInvitationClassPresent ∧
    ((checkSettings s).1).userEmailClassPresent = s.userEmailClassPresent ∧
    ((checkSettings s).1).USER_ENABLE_USERNAME = s.USER_ENABLE_USERNAME ∧
    ((checkSettings s).1).USER_ENABLE_EMAIL = s.USER_ENABLE_EMAIL ∧
    ((checkSettings s).1).USER_ENABLE_INVITE_USER = s.USER_ENABLE_INVITE_USER ∧
    ((checkSettings s).1).USER_ENABLE_CHANGE_PASSWORD = s.USER_ENABLE_CHANGE_PASSWORD ∧
    (((checkSettings s).1).USER_ENABLE_REGISTER = s.USER_ENABLE_REGISTER ∨
      ((checkSettings s).1).USER_ENABLE_REGISTER = false) ∧
    (((checkSettings s).1).USER_ENABLE_CONFIRM_EMAIL = s.USER_ENABLE_CONFIRM_EMAIL ∨
      ((checkSettings s).1).USER_ENABLE_CONFIRM_EMAIL = false) ∧
    (((checkSettings s).1).USER_ENABLE_MULTIPLE_EMAILS = s.USER_ENABLE_MULTIPLE_EMAILS ∨
      ((checkSettings s).1).USER_ENABLE_MULTIPLE_EMAILS = false) ∧
    (((checkSettings s).1).USER_ENABLE_FORGOT_PASSWORD = s.USER_ENABLE_FORGOT_PASSWORD ∨
      ((checkSettings s).1).USER_ENABLE_FORGOT_PASSWORD = false) ∧
    (((checkSettings s).1).USER_SEND_PASSWORD_CHANGED_EMAIL = s.USER_SEND_PASSWORD_CHANGED_EMAIL ∨
      ((checkSettings s).1).USER_SEND_PASSWORD_CHANGED_EMAIL = false) ∧
    (((checkSettings s).1).USER_SEND_REGISTERED_EMAIL = s.USER_SEND_REGISTERED_EMAIL ∨
      ((checkSettings s).1).USER_SEND_REGISTERED_EMAIL = false) ∧
    (((checkSettings s).1).USER_SEND_USERNAME_CHANGED_EMAIL = s.USER_SEND_USERNAME_CHANGED_EMAIL ∨
      ((checkSettings s).1).USER_SEND_USERNAME_CHANGED_EMAIL = false) ∧
    (((checkSettings s).1).USER_REQUIRE_INVITATION = s.USER_REQUIRE_INVITATION ∨
      ((checkSettings s).1).USER_REQUIRE_INVITATION = false) ∧
    (((checkSettings s).1).USER_ENABLE_CHANGE_USERNAME = s.USER_ENABLE_CHANGE_USERNAME ∨
      ((checkSettings s).1).USER_ENABLE_CHANGE_USERNAME = false) := by
  rcases s with ⟨d, invc, uec, un, em, rg, ce, me, fp, spc, sre, suc, ri, cu, iu, cp⟩
  cases d <;> cases iu <;> cases invc <;> cases un <;> cases em <;>
    simp [checkSettings, forceDependentSettings]

/-! ## Claims about the lookup helpers -/

/-- C7: `username_is_available` returns `true` when the authenticated
current user already bears exactly the candidate username; otherwise it
returns `true` exactly when the case-insensitive lookup
`find_user_by_username` finds no user. -/
theorem username_is_available_spec (db : UserDb) (cu : CurrentUser)
    (n : String) :
    (cu.authenticated = true ∧ n = cu.username →
      username_is_available db cu n = true) ∧
    (¬(cu.authenticated = true ∧ n = cu.username) →
      (username_is_available db cu n = true ↔
        find_user_by_username db n = none)) := by
  constructor
  · rintro ⟨ha, rfl⟩
    simp [username_is_available, ha]
  · intro hne
    have hc : (cu.authenticated && (n == cu.username)) = false := by
      cases hau : cu.authenticated
      · rfl
      · have hn : (n == cu.username) = false := by
          cases h : (n == cu.username)
          · rfl
          · exact absurd ⟨hau, eq_of_beq h⟩ hne
        rw [hn]
        rfl
    simp [username_is_available, hc, Option.isNone_iff_eq_none]

/-- C7 witness: `alice`, authenticated, may keep the username `alice`
even though `dbOne` already holds a user with it. -/
theorem username_is_available_spec_witness :
    username_is_available dbOne cuAlice "alice" = true :=
  (username_is_available_spec dbOne cuAlice "alice").1 ⟨rfl, rfl⟩

/-- C8: `email_is_available` is `true` exactly when `find_user_by_email`
yields no owning user; any existing owner — the current user included, since
the result does not read the caller's identity at all — makes the email
unavailable. -/
theorem email_is_available_spec (db : UserDb) (e : String) :
    (email_is_available db e = true ↔ (find_user_by_email db e).1 = none) ∧
    (∀ u : UserRec, (find_user_by_email db e).1 = some u →
      email_is_available db e = false) := by
  refine ⟨?_, ?_⟩
  · simp [email_is_available, Option.isNone_iff_eq_none]
  · intro u hu
    simp [email_is_available, hu]

/-- C8 witness: `alice@example.com` is owned by `userAlice` (found
case-insensitively), so it is reported unavailable — even to `alice`. -/
theorem email_is_available_spec_witness :
    email_is_available dbOne "Alice@Example.Com" = false :=
  (email_is_available_spec dbOne "Alice@Example.Com").2 userAlice (by decide)

/-! ## Claims about route registration -/

/-- C9 counterexample: `sResolvedNoInvite` is a resolved settings state
with `USER_ENABLE_INVITE_USER` off, yet `init_urls` — the method `init_app`
actually calls — still registers `user.invite_user`, refuting
"a feature's route is registered iff its resolved flag is enabled".
(The uncalled helper `_add_url_routes` would indeed have skipped it.) -/
theorem init_urls_ignores_flags_counterexample :
    sResolvedNoInvite.USER_ENABLE_INVITE_USER = false ∧
    checkSettings sResolvedNoInvite = (sResolvedNoInvite, none) ∧
    "user.invite_user" ∈ init_urls_endpoints sResolvedNoInvite ∧
    "user.invite_user" ∉ add_url_routes_endpoints sResolvedNoInvite := by
  decide

/-- C9 amended: `init_urls`, which `init_app` invokes, registers every
route unconditionally (its endpoint set does not depend on the settings);
the conditional registration described by the spec holds only of the helper
`_add_url_routes`, which `init_app` never calls: there each feature's route
is added exactly when its resolved flag is enabled. -/
theorem route_registration_amended (s t : Settings) :
    init_urls_endpoints s = init_urls_endpoints t ∧
    "user.invite_user" ∈ init_urls_endpoints s ∧
    (("user.confirm_email" ∈ add_url_routes_endpoints s) ↔
      s.USER_ENABLE_CONFIRM_EMAIL = true) ∧
    (("user.change_password" ∈ add_url_routes_endpoints s) ↔
      s.USER_ENABLE_CHANGE_PASSWORD = true) ∧
    (("user.change_username" ∈ add_url_routes_endpoints s) ↔
      s.USER_ENABLE_CHANGE_USERNAME = true) ∧
    (("user.forgot_password" ∈ add_url_routes_endpoints s) ↔
      s.USER_ENABLE_FORGOT_PASSWORD = true) ∧
    (("user.register" ∈ add_url_routes_endpoints s) ↔
      s.USER_ENABLE_REGISTER = true) ∧
    (("user.invite_user" ∈ add_url_routes_endpoints s) ↔
      s.USER_ENABLE_INVITE_USER = true) := by
  rcases s with ⟨d, invc, uec, un, em, rg, ce, me, fp, spc, sre, suc, ri, cu, iu, cp⟩
  cases ce <;> cases cp <;> cases cu <;> cases fp <;> cases rg <;>
    cases uec <;> cases iu <;>
    simp [init_urls_endpoints, add_url_routes_endpoints]

end FlaskUser
